import Mathlib

/-!
Shallow embedding of the risk scoring and aggregation engine of the two
dashboard scripts, `ChokepointRiskDashboard.py` (namespace `Chokepoint`)
and `PortOperationsWeatherDashboard.py` (namespace `PortOps`).  Raw
weather values (wind speed in km/h, visibility in m, precipitation in mm)
are modelled as rationals; factor contributions and composite scores are
naturals, exactly the integer literals of the source.  Python `round` is
embedded as round-half-to-even on rationals (`pyround`); the scripts only
apply it to exact dyadic values, so the rational model is exact.
-/

/-- Python builtin `round` restricted to rationals: round half to even
(banker's rounding).  On a tie (fractional part exactly one half) the even
neighbour is chosen; otherwise the nearest integer. -/
def pyround (q : ℚ) : ℤ :=
  if q - (⌊q⌋ : ℚ) = 1 / 2 then (if 2 ∣ ⌊q⌋ then ⌊q⌋ else ⌊q⌋ + 1)
  else ⌊q + 1 / 2⌋

/-- Python `max` over a list of rationals.  The scripts apply it only to
nonempty (24-element) slices; the empty default is never exercised there. -/
def maxQ : List ℚ → ℚ
  | [] => 0
  | h :: t => t.foldl max h

/-- Python `min` over a list of rationals, same convention as `maxQ`. -/
def minQ : List ℚ → ℚ
  | [] => 0
  | h :: t => t.foldl min h

/-- The local helper `avg` inside `compute_risk` of the chokepoint script:
`sum(seq) / len(seq) if seq else 0.0`. -/
def avgQ (l : List ℚ) : ℚ := if l.isEmpty then 0 else l.sum / (l.length : ℚ)

/-- Composite-level thresholds, written identically in both scripts:
`score < 30 -> "low"`, `score < 60 -> "moderate"`, else `"high"`. -/
def levelOf (s : ℕ) : String :=
  if s < 30 then "low" else if s < 60 then "moderate" else "high"

/-- The same thresholds applied to the integer accumulator of
`compute_global_metrics`, which is initialised to `-1`. -/
def levelOfZ (s : ℤ) : String :=
  if s < 30 then "low" else if s < 60 then "moderate" else "high"

namespace Chokepoint

/-- Wind branch of `compute_risk` (ChokepointRiskDashboard.py lines
342-350): `<20 -> 5, <40 -> 15, <60 -> 30, else 40`. -/
def wind_risk (w : ℚ) : ℕ :=
  if w < 20 then 5 else if w < 40 then 15 else if w < 60 then 30 else 40

/-- Visibility branch (lines 352-360): `>10000 -> 0, >5000 -> 5,
>1000 -> 10, else 20`. -/
def vis_risk (v : ℚ) : ℕ :=
  if v > 10000 then 0 else if v > 5000 then 5 else if v > 1000 then 10
  else 20

/-- Precipitation branch (lines 362-370): `=0 -> 0, <2 -> 5, <10 -> 10,
else 20`. -/
def precip_risk (p : ℚ) : ℕ :=
  if p = 0 then 0 else if p < 2 then 5 else if p < 10 then 10 else 20

/-- Transit difficulty index (line 386): `round((score / 80) * 100)` with
`max_possible = 40 + 20 + 20 = 80`. -/
def tdi (s : ℕ) : ℤ := pyround ((s : ℚ) / 80 * 100)

/-- Five-way transit difficulty category table (lines 387-396). -/
def tdiCategory (i : ℤ) : String :=
  if i < 20 then "Routine" else if i < 40 then "Caution"
  else if i < 60 then "Challenging" else if i < 80 then "Hazardous"
  else "Severe"

/-- The value-keyed `driver_map` lookup (lines 398-404).  The dict literal
keys the three labels by their scores, so on equal keys a later insertion
overwrites an earlier one (wind first, then visibility, then
precipitation); the label stored at the maximum key is returned. -/
def dominant_driver (w v p : ℕ) : String :=
  let m := max w (max v p)
  if p = m then "Heavy precipitation"
  else if v = m then "Visibility degradation"
  else "Wind-driven risk"

/-- Per-hour score of the 24-hour risk strip loop (lines 434-467); the
tables inlined there are identical to the window ones. -/
def hourScore (w v p : ℚ) : ℕ := wind_risk w + vis_risk v + precip_risk p

/-- The if/elif chain producing the 6-hour outlook text (lines 424-431),
parameterised by the two trend conditions. -/
def outlookChain (worsening improving : Prop) [Decidable worsening]
    [Decidable improving] : String :=
  if worsening ∧ ¬ improving then
    "Conditions deteriorating over the next 6 hours."
  else if improving ∧ ¬ worsening then
    "Conditions improving over the next 6 hours."
  else if worsening ∧ improving then
    "Mixed signals: some factors improving, others deteriorating."
  else "Stable conditions expected over the next 6 hours."

/-- Fields of the dict returned by `compute_risk` (lines 478-492). -/
structure RiskResult where
  score : ℕ
  level : String
  color : String
  tdi_score : ℤ
  tdi_category : String
  outlook_6h : String
  dominant_driver : String
  hourly_risk_strip : List String
  wind_factor : ℕ
  vis_factor : ℕ
  precip_factor : ℕ

/-- The chokepoint `compute_risk` (lines 333-492): window-aggregated
factor scores (max wind, min visibility, max precipitation over the first
24 hours), composite sum, level, transit difficulty index and category,
dominant driver, near/mid multi-factor 6-hour outlook, and the hour-by-hour
risk strip. -/
def compute_risk (windspeed_10m visibility precipitation : List ℚ) :
    RiskResult :=
  let winds := windspeed_10m.take 24
  let vis := visibility.take 24
  let precip := precipitation.take 24
  let windRisk := wind_risk (maxQ winds)
  let visRisk := vis_risk (minQ vis)
  let precipRisk := precip_risk (maxQ precip)
  let score := windRisk + visRisk + precipRisk
  let level := levelOf score
  let color :=
    if score < 30 then "#2ECC71" else if score < 60 then "#F1C40F"
    else "#E74C3C"
  let tdiScore := tdi score
  let tdiCat := tdiCategory tdiScore
  let dominant := dominant_driver windRisk visRisk precipRisk
  let d_wind := avgQ ((winds.drop 3).take 3) - avgQ (winds.take 3)
  let d_vis := avgQ ((vis.drop 3).take 3) - avgQ (vis.take 3)
  let d_precip := avgQ ((precip.drop 3).take 3) - avgQ (precip.take 3)
  let outlook := outlookChain
    (d_wind > 5 ∨ d_vis < -2000 ∨ d_precip > 2)
    (d_wind < -5 ∨ d_vis > 2000 ∨ d_precip < -2)
  let strip := (List.range 24).map fun i =>
    levelOf (hourScore (winds.getD i 0) (vis.getD i 0) (precip.getD i 0))
  { score := score, level := level, color := color, tdi_score := tdiScore,
    tdi_category := tdiCat, outlook_6h := outlook,
    dominant_driver := dominant, hourly_risk_strip := strip,
    wind_factor := windRisk, vis_factor := visRisk,
    precip_factor := precipRisk }

end Chokepoint

/-- The four outlook categories of the specification (section 4.5). -/
inductive Outlook
  | stable
  | improving
  | deteriorating
  | mixed
deriving DecidableEq

/-- Four-way result table of the specification's outlook method,
parameterised by the worsening and improving conditions. -/
def specOutlookChain (worsening improving : Prop) [Decidable worsening]
    [Decidable improving] : Outlook :=
  if worsening ∧ ¬ improving then Outlook.deteriorating
  else if improving ∧ ¬ worsening then Outlook.improving
  else if worsening ∧ improving then Outlook.mixed
  else Outlook.stable

/-- Multi-factor near/mid-window outlook following the words of the spec
(section 4.5): per factor, the average over hours [0,3) and [3,6) of the
24-hour series, the threshold deltas, and the four-way result.  Used as
the comparator definition for the outlook claim. -/
def specOutlook (windspeed visibility precipitation : List ℚ) : Outlook :=
  let winds := windspeed.take 24
  let vis := visibility.take 24
  let precip := precipitation.take 24
  let d_wind := avgQ ((winds.drop 3).take 3) - avgQ (winds.take 3)
  let d_vis := avgQ ((vis.drop 3).take 3) - avgQ (vis.take 3)
  let d_precip := avgQ ((precip.drop 3).take 3) - avgQ (precip.take 3)
  specOutlookChain
    (d_wind > 5 ∨ d_vis < -2000 ∨ d_precip > 2)
    (d_wind < -5 ∨ d_vis > 2000 ∨ d_precip < -2)

/-- The sentence the chokepoint script prints for each outlook category. -/
def outlookText : Outlook → String
  | Outlook.deteriorating => "Conditions deteriorating over the next 6 hours."
  | Outlook.improving => "Conditions improving over the next 6 hours."
  | Outlook.mixed =>
    "Mixed signals: some factors improving, others deteriorating."
  | Outlook.stable => "Stable conditions expected over the next 6 hours."

namespace PortOps

/-- Wind score of the port script (PortOperationsWeatherDashboard.py lines
76-86): `<=15 -> 0, <=25 -> 10, <=35 -> 20, <=45 -> 35, else 50`. -/
def wind_score (w : ℚ) : ℕ :=
  if w ≤ 15 then 0 else if w ≤ 25 then 10 else if w ≤ 35 then 20
  else if w ≤ 45 then 35 else 50

/-- Visibility score (lines 88-98): `>10000 -> 0, >5000 -> 5, >2000 -> 10,
>500 -> 20, else 30`. -/
def vis_score (v : ℚ) : ℕ :=
  if v > 10000 then 0 else if v > 5000 then 5 else if v > 2000 then 10
  else if v > 500 then 20 else 30

/-- Precipitation score (lines 100-110): `<=0.5 -> 0, <=2 -> 5, <=5 -> 10,
<=10 -> 15, else 20`. -/
def precip_score (p : ℚ) : ℕ :=
  if p ≤ 1 / 2 then 0 else if p ≤ 2 then 5 else if p ≤ 5 then 10
  else if p ≤ 10 then 15 else 20

/-- The `level.capitalize()` used for `tdi_category` (line 196). -/
def capLevel (s : ℕ) : String :=
  if s < 30 then "Low" else if s < 60 then "Moderate" else "High"

/-- Python `max(drivers, key=drivers.get)` over the insertion-ordered dict
`{wind, visibility, precipitation}` (lines 124-129): the first key with the
maximal value wins, so equal maxima resolve in insertion order. -/
def dominantOf (ws vs ps : ℕ) : String :=
  if ws ≥ vs ∧ ws ≥ ps then "wind"
  else if vs ≥ ps then "visibility"
  else "precipitation"

/-- The single-factor trend text (lines 131-138): compare the wind speed
at hour 6 with the wind speed at hour 0 against a threshold of 5. -/
def trendText (trend : ℚ) : String :=
  if trend > 5 then "Deteriorating" else if trend < -5 then "Improving"
  else "Stable"

/-- Per-hour score of the strip loop (lines 140-186), which inlines the
same three tables. -/
def hourScore (w v p : ℚ) : ℕ := wind_score w + vis_score v + precip_score p

/-- Fields of the dict returned by the port `compute_risk` (lines
188-197). -/
structure RiskResult where
  score : ℕ
  level : String
  color : String
  dominant_driver : String
  outlook_6h : String
  hourly_risk_strip : List String
  tdi_score : ℤ
  tdi_category : String

/-- The port `compute_risk` (lines 70-197): reference-hour (index 0)
factor scores, composite `min(sum, 100)`, level, first-maximum dominant
driver, single-factor hour-0 versus hour-6 wind outlook, hour-by-hour
strip, and difficulty fields `int(score)` and `level.capitalize()`. -/
def compute_risk (windspeed_10m visibility precipitation : List ℚ) :
    RiskResult :=
  let wind := windspeed_10m.getD 0 0
  let vis := visibility.getD 0 0
  let precip := precipitation.getD 0 0
  let windScore := wind_score wind
  let visScore := vis_score vis
  let precipScore := precip_score precip
  let score := min (windScore + visScore + precipScore) 100
  let level := levelOf score
  let color :=
    if score < 30 then "#2ECC71" else if score < 60 then "#F1C40F"
    else "#E74C3C"
  let dominant := dominantOf windScore visScore precipScore
  let wind_future := windspeed_10m.getD 6 0
  let outlook := trendText (wind_future - wind)
  let strip := (List.range 24).map fun i =>
    levelOf (hourScore (windspeed_10m.getD i 0) (visibility.getD i 0)
      (precipitation.getD i 0))
  { score := score, level := level, color := color,
    dominant_driver := dominant, outlook_6h := outlook,
    hourly_risk_strip := strip, tdi_score := (score : ℤ),
    tdi_category := capLevel score }

end PortOps

/-- One per-location entry as `compute_global_metrics` reads it: the
location name with the `level` and `score` fields of its risk dict. -/
structure LocAssessment where
  name : String
  level : String
  score : ℕ

/-- Result fields of `compute_global_metrics` common to both scripts. -/
structure GlobalMetrics where
  global_index : ℤ
  global_level : String
  highest : Option String
  counts_low : ℕ
  counts_moderate : ℕ
  counts_high : ℕ

/-- The accumulator loop of `compute_global_metrics` (ChokepointRiskDashboard.py
lines 74-80, PortOperationsWeatherDashboard.py lines 261-267): `max_score`
starts at `-1` and is replaced only on a strictly greater score, keeping
the earliest maximal location. -/
def globalLoop : ℤ → Option String → List LocAssessment → ℤ × Option String
  | m, h, [] => (m, h)
  | m, h, a :: t =>
    if (a.score : ℤ) > m then globalLoop (a.score : ℤ) (some a.name) t
    else globalLoop m h t

/-- The per-level tally kept by the same loop. -/
def countLevel (l : List LocAssessment) (lv : String) : ℕ :=
  (l.filter fun a => a.level == lv).length

/-- The shared `compute_global_metrics` (ChokepointRiskDashboard.py lines
69-129, PortOperationsWeatherDashboard.py lines 256-281; the loop, the
thresholds on the maximum and the highest-risk reference are identical in
the two scripts, which differ only in presentation strings). -/
def compute_global_metrics (l : List LocAssessment) : GlobalMetrics :=
  let r := globalLoop (-1) none l
  { global_index := r.1
    global_level := levelOfZ r.1
    highest := r.2
    counts_low := countLevel l "low"
    counts_moderate := countLevel l "moderate"
    counts_high := countLevel l "high" }

namespace SpecModel

/-- Error taxonomy of the specification (section 7) for the location
assessor boundary. -/
inductive AssessError
  | insufficientData
  | malformedSeries
deriving DecidableEq

/-- Modelled from the spec: `LocationAssessor` (section 4.7) and the error
classes `InsufficientDataError` and `MalformedSeriesError` appear nowhere
in the two source scripts, which index raw arrays without validation; this
definition follows the spec's words.  A missing factor array, or factor
arrays of unequal length, fail with `MalformedSeriesError`; a well-formed
series of fewer than 24 observations fails with `InsufficientDataError`
(structure is checked first, since a malformed input has no well-defined
observation count); otherwise the full assessment is computed.  No partial
assessment exists on failure: the result is `Except.error`. -/
def assess (windspeed visibility precipitation : Option (List ℚ)) :
    Except AssessError Chokepoint.RiskResult :=
  match windspeed, visibility, precipitation with
  | some w, some v, some p =>
    if w.length = v.length ∧ v.length = p.length then
      if w.length < 24 then Except.error AssessError.insufficientData
      else Except.ok (Chokepoint.compute_risk w v p)
    else Except.error AssessError.malformedSeries
  | _, _, _ => Except.error AssessError.malformedSeries

end SpecModel

/-! ## Helper lemmas -/

theorem floor_le_pyround (q : ℚ) : ⌊q⌋ ≤ pyround q := by
  unfold pyround
  split_ifs with h1 h2
  · omega
  · omega
  · exact Int.floor_le_floor (by linarith)

theorem pyround_le_floor_add_one (q : ℚ) : pyround q ≤ ⌊q⌋ + 1 := by
  unfold pyround
  split_ifs with h1 h2
  · omega
  · omega
  · have h3 : q + 1 / 2 < (⌊q⌋ : ℚ) + 2 := by
      have := Int.lt_floor_add_one q
      linarith
    have h4 : ⌊q + 1 / 2⌋ < ⌊q⌋ + 2 := by
      rw [Int.floor_lt]
      push_cast
      linarith
    omega

theorem pyround_intCast (n : ℤ) : pyround (n : ℚ) = n := by
  unfold pyround
  rw [Int.floor_intCast, if_neg (by norm_num)]
  rw [Int.floor_eq_iff]
  constructor
  · linarith
  · linarith

theorem pyround_mono {a b : ℚ} (hab : a ≤ b) : pyround a ≤ pyround b := by
  rcases lt_or_eq_of_le (Int.floor_le_floor hab) with hf | hf
  · calc pyround a ≤ ⌊a⌋ + 1 := pyround_le_floor_add_one a
      _ ≤ ⌊b⌋ := by omega
      _ ≤ pyround b := floor_le_pyround b
  · have hfq : ((⌊a⌋ : ℤ) : ℚ) = ((⌊b⌋ : ℤ) : ℚ) := by rw [hf]
    by_cases h1 : a - (⌊a⌋ : ℚ) = 1 / 2 <;> by_cases h2 : b - (⌊b⌋ : ℚ) = 1 / 2
    · have hab2 : a = b := by linarith
      rw [hab2]
    · have hbg : b - (⌊b⌋ : ℚ) > 1 / 2 := by
        rcases lt_or_gt_of_ne h2 with h | h
        · linarith
        · exact h
      have hmid : ⌊b⌋ + 1 ≤ ⌊b + 1 / 2⌋ := by
        rw [Int.le_floor]
        push_cast
        linarith
      have ha2 : pyround a ≤ ⌊a⌋ + 1 := pyround_le_floor_add_one a
      unfold pyround
      rw [if_pos h1, if_neg h2]
      unfold pyround at ha2
      rw [if_pos h1] at ha2
      omega
    · have hb2 : b = (⌊b⌋ : ℚ) + 1 / 2 := by linarith
      have halow : a - (⌊a⌋ : ℚ) < 1 / 2 := by
        rcases lt_or_gt_of_ne h1 with h | h
        · exact h
        · exfalso
          have hx : a ≤ b := hab
          rw [hb2] at hx
          linarith
      have hup : ⌊a + 1 / 2⌋ < ⌊a⌋ + 1 := by
        rw [Int.floor_lt]
        push_cast
        linarith
      have hlo : ⌊b⌋ ≤ pyround b := floor_le_pyround b
      unfold pyround
      rw [if_neg h1, if_pos h2]
      unfold pyround at hlo
      rw [if_pos h2] at hlo
      omega
    · unfold pyround
      rw [if_neg h1, if_neg h2]
      exact Int.floor_le_floor (by linarith)

theorem foldl_max_const (n : ℕ) (q : ℚ) :
    (List.replicate n q).foldl max q = q := by
  induction n with
  | zero => rfl
  | succ k ih =>
    rw [List.replicate_succ, List.foldl_cons, max_self]
    exact ih

theorem maxQ_replicate (n : ℕ) (q : ℚ) :
    maxQ (List.replicate (n + 1) q) = q := by
  rw [List.replicate_succ]
  exact foldl_max_const n q

theorem foldl_min_const (n : ℕ) (q : ℚ) :
    (List.replicate n q).foldl min q = q := by
  induction n with
  | zero => rfl
  | succ k ih =>
    rw [List.replicate_succ, List.foldl_cons, min_self]
    exact ih

theorem minQ_replicate (n : ℕ) (q : ℚ) :
    minQ (List.replicate (n + 1) q) = q := by
  rw [List.replicate_succ]
  exact foldl_min_const n q

theorem avgQ_replicate (n : ℕ) (q : ℚ) :
    avgQ (List.replicate (n + 1) q) = q := by
  simp [avgQ, List.sum_replicate, nsmul_eq_mul]
  field_simp

theorem outlookChain_text (w i : Prop) [Decidable w] [Decidable i] :
    Chokepoint.outlookChain w i = outlookText (specOutlookChain w i) := by
  by_cases hw : w <;> by_cases hi : i <;>
    simp [Chokepoint.outlookChain, specOutlookChain, outlookText, hw, hi]

namespace Chokepoint

theorem wind_risk_mono {a b : ℚ} (hab : a ≤ b) :
    wind_risk a ≤ wind_risk b := by
  unfold wind_risk
  split_ifs <;> first | omega | (exfalso; linarith)

theorem vis_risk_anti {a b : ℚ} (hab : a ≤ b) :
    vis_risk b ≤ vis_risk a := by
  unfold vis_risk
  split_ifs <;> first | omega | (exfalso; linarith)

theorem precip_risk_mono {a b : ℚ} (ha : 0 ≤ a) (hab : a ≤ b) :
    precip_risk a ≤ precip_risk b := by
  by_cases ha0 : a = 0
  · unfold precip_risk
    rw [if_pos ha0]
    exact Nat.zero_le _
  · have hb0 : ¬ b = 0 := fun h => ha0 (le_antisymm (by linarith) ha)
    unfold precip_risk
    rw [if_neg ha0, if_neg hb0]
    split_ifs <;> first | omega | (exfalso; linarith)

theorem wind_risk_ge (w : ℚ) : 5 ≤ wind_risk w := by
  unfold wind_risk
  split_ifs <;> omega

theorem wind_risk_le (w : ℚ) : wind_risk w ≤ 40 := by
  unfold wind_risk
  split_ifs <;> omega

theorem vis_risk_le (v : ℚ) : vis_risk v ≤ 20 := by
  unfold vis_risk
  split_ifs <;> omega

theorem precip_risk_le (p : ℚ) : precip_risk p ≤ 20 := by
  unfold precip_risk
  split_ifs <;> omega

theorem tdi_nonneg (s : ℕ) : 0 ≤ tdi s := by
  have h0 : (0 : ℤ) ≤ ⌊(s : ℚ) / 80 * 100⌋ := by
    apply Int.floor_nonneg.mpr
    positivity
  exact le_trans h0 (floor_le_pyround _)

theorem tdi_le_100 {s : ℕ} (hs : s ≤ 80) : tdi s ≤ 100 := by
  rcases Nat.lt_or_ge s 80 with h | h
  · have h79 : (s : ℚ) ≤ 79 := by exact_mod_cast Nat.lt_succ_iff.mp (by omega)
    have hq : (s : ℚ) / 80 * 100 < 99 := by
      rw [div_mul_eq_mul_div, div_lt_iff₀ (by norm_num : (0:ℚ) < 80)]
      linarith
    have hf : ⌊(s : ℚ) / 80 * 100⌋ < 99 := by
      rw [Int.floor_lt]
      push_cast
      linarith
    have := pyround_le_floor_add_one ((s : ℚ) / 80 * 100)
    unfold tdi
    omega
  · have h80 : s = 80 := le_antisymm hs h
    subst h80
    unfold tdi
    have hc : ((80 : ℕ) : ℚ) / 80 * 100 = ((100 : ℤ) : ℚ) := by norm_num
    rw [hc, pyround_intCast]

theorem tdi_mono {s t : ℕ} (hst : s ≤ t) : tdi s ≤ tdi t := by
  unfold tdi
  apply pyround_mono
  have hc : (s : ℚ) ≤ t := by exact_mod_cast hst
  have h80 : (0:ℚ) < 80 := by norm_num
  rw [div_mul_eq_mul_div, div_mul_eq_mul_div, div_le_div_iff_of_pos_right h80]
  linarith

theorem tdi_zero_iff (s : ℕ) : tdi s = 0 ↔ s = 0 := by
  constructor
  · intro h
    by_contra hne
    have hs1 : 1 ≤ s := Nat.one_le_iff_ne_zero.mpr hne
    have hq : (1 : ℚ) ≤ (s : ℚ) / 80 * 100 := by
      have hc : (1 : ℚ) ≤ (s : ℚ) := by exact_mod_cast hs1
      rw [div_mul_eq_mul_div, le_div_iff₀ (by norm_num : (0:ℚ) < 80)]
      linarith
    have hf : (1 : ℤ) ≤ ⌊(s : ℚ) / 80 * 100⌋ := by
      rw [Int.le_floor]
      push_cast
      linarith
    have := floor_le_pyround ((s : ℚ) / 80 * 100)
    unfold tdi at h
    omega
  · intro h
    subst h
    unfold tdi
    have hc : ((0 : ℕ) : ℚ) / 80 * 100 = ((0 : ℤ) : ℚ) := by norm_num
    rw [hc, pyround_intCast]

theorem tdi_hundred_iff {s : ℕ} (hs : s ≤ 80) : tdi s = 100 ↔ s = 80 := by
  constructor
  · intro h
    by_contra hne
    have h79 : s ≤ 79 := by omega
    have h99 : tdi s ≤ 99 := by
      have hc : (s : ℚ) ≤ 79 := by exact_mod_cast h79
      have hq : (s : ℚ) / 80 * 100 < 99 := by
        rw [div_mul_eq_mul_div, div_lt_iff₀ (by norm_num : (0:ℚ) < 80)]
        linarith
      have hf : ⌊(s : ℚ) / 80 * 100⌋ < 99 := by
        rw [Int.floor_lt]
        push_cast
        linarith
      have := pyround_le_floor_add_one ((s : ℚ) / 80 * 100)
      unfold tdi
      omega
    omega
  · intro h
    subst h
    unfold tdi
    have hc : ((80 : ℕ) : ℚ) / 80 * 100 = ((100 : ℤ) : ℚ) := by norm_num
    rw [hc, pyround_intCast]

theorem tdi_pos {s : ℕ} (hs : 5 ≤ s) : 0 < tdi s := by
  have hq : (6 : ℚ) ≤ (s : ℚ) / 80 * 100 := by
    have hc : (5 : ℚ) ≤ (s : ℚ) := by exact_mod_cast hs
    rw [div_mul_eq_mul_div, le_div_iff₀ (by norm_num : (0:ℚ) < 80)]
    linarith
  have hf : (6 : ℤ) ≤ ⌊(s : ℚ) / 80 * 100⌋ := by
    rw [Int.le_floor]
    push_cast
    linarith
  have := floor_le_pyround ((s : ℚ) / 80 * 100)
  unfold tdi
  omega

end Chokepoint

namespace PortOps

theorem wind_score_le (w : ℚ) : wind_score w ≤ 50 := by
  unfold wind_score
  split_ifs <;> omega

theorem vis_score_le (v : ℚ) : vis_score v ≤ 30 := by
  unfold vis_score
  split_ifs <;> omega

theorem precip_score_le (p : ℚ) : precip_score p ≤ 20 := by
  unfold precip_score
  split_ifs <;> omega

end PortOps

theorem cp_score_eq (w v p : List ℚ) :
    (Chokepoint.compute_risk w v p).score =
      Chokepoint.wind_risk (maxQ (w.take 24)) +
      Chokepoint.vis_risk (minQ (v.take 24)) +
      Chokepoint.precip_risk (maxQ (p.take 24)) := rfl

theorem cp_tdi_eq (w v p : List ℚ) :
    (Chokepoint.compute_risk w v p).tdi_score =
      Chokepoint.tdi (Chokepoint.compute_risk w v p).score := rfl

theorem po_score_eq (w v p : List ℚ) :
    (PortOps.compute_risk w v p).score =
      min (PortOps.wind_score (w.getD 0 0) + PortOps.vis_score (v.getD 0 0) +
        PortOps.precip_score (p.getD 0 0)) 100 := rfl

theorem po_tdi_eq (w v p : List ℚ) :
    (PortOps.compute_risk w v p).tdi_score =
      ((PortOps.compute_risk w v p).score : ℤ) := rfl

theorem po_cat_eq (w v p : List ℚ) :
    (PortOps.compute_risk w v p).tdi_category =
      PortOps.capLevel (PortOps.compute_risk w v p).score := rfl

theorem globalLoop_spec (l : List LocAssessment) :
    ∀ (m : ℤ) (h : Option String),
      m ≤ (globalLoop m h l).1 ∧
      (∀ a ∈ l, (a.score : ℤ) ≤ (globalLoop m h l).1) ∧
      ((globalLoop m h l).1 = m ∧ (globalLoop m h l).2 = h ∨
        ∃ i, ∃ hi : i < l.length,
          (globalLoop m h l).2 = some (l.get ⟨i, hi⟩).name ∧
          ((l.get ⟨i, hi⟩).score : ℤ) = (globalLoop m h l).1 ∧
          m < (globalLoop m h l).1 ∧
          ∀ a ∈ l.take i, (a.score : ℤ) < (globalLoop m h l).1) := by
  induction l with
  | nil =>
    intro m h
    refine ⟨le_refl _, ?_, Or.inl ⟨rfl, rfl⟩⟩
    intro a ha
    exact absurd ha (List.not_mem_nil a)
  | cons a t ih =>
    intro m h
    by_cases hgt : (a.score : ℤ) > m
    · have heq : globalLoop m h (a :: t) =
          globalLoop (a.score : ℤ) (some a.name) t := by
        simp [globalLoop, hgt]
      obtain ⟨h1, h2, h3⟩ := ih (a.score : ℤ) (some a.name)
      rw [heq]
      refine ⟨le_trans (le_of_lt hgt) h1, ?_, ?_⟩
      · intro x hx
        rcases List.mem_cons.mp hx with hxa | hxt
        · rw [hxa]; exact h1
        · exact h2 x hxt
      · rcases h3 with ⟨he, hh⟩ | ⟨i, hi, hname, hsc, hlt, hpre⟩
        · refine Or.inr ⟨0, Nat.succ_pos _, ?_, ?_, ?_, ?_⟩
          · simpa using hh
          · simpa using he.symm
          · rw [he]; exact hgt
          · intro x hx
            simp at hx
        · refine Or.inr ⟨i + 1, Nat.succ_lt_succ hi, ?_, ?_, ?_, ?_⟩
          · simpa using hname
          · simpa using hsc
          · exact lt_of_lt_of_le hgt h1
          · intro x hx
            rw [List.take_succ_cons] at hx
            rcases List.mem_cons.mp hx with hxa | hxt
            · rw [hxa]; exact hlt
            · exact hpre x hxt
    · push_neg at hgt
      have heq : globalLoop m h (a :: t) = globalLoop m h t := by
        simp only [globalLoop]
        rw [if_neg (not_lt.mpr hgt)]
      obtain ⟨h1, h2, h3⟩ := ih m h
      rw [heq]
      refine ⟨h1, ?_, ?_⟩
      · intro x hx
        rcases List.mem_cons.mp hx with hxa | hxt
        · rw [hxa]; exact le_trans hgt h1
        · exact h2 x hxt
      · rcases h3 with hl | ⟨i, hi, hname, hsc, hlt, hpre⟩
        · exact Or.inl hl
        · refine Or.inr ⟨i + 1, Nat.succ_lt_succ hi, ?_, ?_, ?_, ?_⟩
          · simpa using hname
          · simpa using hsc
          · exact hlt
          · intro x hx
            rw [List.take_succ_cons] at hx
            rcases List.mem_cons.mp hx with hxa | hxt
            · rw [hxa]; exact lt_of_le_of_lt hgt hlt
            · exact hpre x hxt

/-! ## Claim theorems -/

/-- C1: the dominant-driver tie-break.  On a chokepoint-transit series
whose wind and visibility contributions tie at the maximum (both 5,
precipitation 0), the value-keyed `driver_map` of the chokepoint script
silently drops the wind entry and returns the visibility label, not wind;
the port script's first-maximum `max(drivers, key=drivers.get)` does
resolve the same tie to wind.  This refutes the claimed wind-first
tie-break for the chokepoint variant at a concrete input. -/
theorem c1_dominant_driver_tie_eval :
    (Chokepoint.compute_risk (List.replicate 24 10) (List.replicate 24 6000)
      (List.replicate 24 0)).dominant_driver = "Visibility degradation" ∧
    (PortOps.compute_risk (List.replicate 24 20) (List.replicate 24 2500)
      (List.replicate 24 0)).dominant_driver = "wind" := by
  constructor
  · simp only [Chokepoint.compute_risk, List.take_replicate]
    norm_num [maxQ_replicate, minQ_replicate]
    norm_num [Chokepoint.wind_risk, Chokepoint.vis_risk,
      Chokepoint.precip_risk, Chokepoint.dominant_driver]
  · simp only [PortOps.compute_risk]
    rw [List.getD_eq_getElem?_getD, List.getElem?_replicate]
    rw [List.getD_eq_getElem?_getD, List.getElem?_replicate]
    rw [List.getD_eq_getElem?_getD, List.getElem?_replicate]
    norm_num [PortOps.wind_score, PortOps.vis_score, PortOps.precip_score,
      PortOps.dominantOf]

/-- C2: chokepoint-transit factor step tables.  The stated boundary
inclusivities hold (wind 20 gives 15 while 19.99 gives 5, wind 60 gives 40
while 59.99 gives 30, visibility exactly 10000 gives 5 while 10000.01
gives 0, precipitation exactly 0 gives 0 while 0.01 gives 5); each factor
score is monotone in the risk direction (wind and precipitation
non-decreasing — precipitation on its nonnegative mm domain — visibility
non-increasing in the raw value), and each is bounded by its declared
maximum (wind 40, visibility 20, precipitation 20). -/
theorem c2_chokepoint_factor_tables :
    (Chokepoint.wind_risk 20 = 15 ∧ Chokepoint.wind_risk 19.99 = 5 ∧
      Chokepoint.wind_risk 60 = 40 ∧ Chokepoint.wind_risk 59.99 = 30) ∧
    (Chokepoint.vis_risk 10000 = 5 ∧ Chokepoint.vis_risk 10000.01 = 0) ∧
    (Chokepoint.precip_risk 0 = 0 ∧ Chokepoint.precip_risk 0.01 = 5) ∧
    (∀ a b : ℚ, a ≤ b → Chokepoint.wind_risk a ≤ Chokepoint.wind_risk b) ∧
    (∀ a b : ℚ, a ≤ b → Chokepoint.vis_risk b ≤ Chokepoint.vis_risk a) ∧
    (∀ a b : ℚ, 0 ≤ a → a ≤ b →
      Chokepoint.precip_risk a ≤ Chokepoint.precip_risk b) ∧
    (∀ w : ℚ, Chokepoint.wind_risk w ≤ 40) ∧
    (∀ v : ℚ, Chokepoint.vis_risk v ≤ 20) ∧
    (∀ p : ℚ, Chokepoint.precip_risk p ≤ 20) := by
  refine ⟨⟨?_, ?_, ?_, ?_⟩, ⟨?_, ?_⟩, ⟨?_, ?_⟩, ?_, ?_, ?_, ?_, ?_, ?_⟩
  · norm_num [Chokepoint.wind_risk]
  · norm_num [Chokepoint.wind_risk]
  · norm_num [Chokepoint.wind_risk]
  · norm_num [Chokepoint.wind_risk]
  · norm_num [Chokepoint.vis_risk]
  · norm_num [Chokepoint.vis_risk]
  · norm_num [Chokepoint.precip_risk]
  · norm_num [Chokepoint.precip_risk]
  · exact fun a b hab => Chokepoint.wind_risk_mono hab
  · exact fun a b hab => Chokepoint.vis_risk_anti hab
  · exact fun a b ha hab => Chokepoint.precip_risk_mono ha hab
  · exact Chokepoint.wind_risk_le
  · exact Chokepoint.vis_risk_le
  · exact Chokepoint.precip_risk_le

/-- C3: port-operations factor step tables.  Wind exactly 15 scores 0
while 15.01 scores 10, wind exactly 45 scores 35 while 45.01 scores 50,
and each factor score is bounded by its declared maximum (wind 50,
visibility 30, precipitation 20). -/
theorem c3_portops_factor_tables :
    (PortOps.wind_score 15 = 0 ∧ PortOps.wind_score 15.01 = 10 ∧
      PortOps.wind_score 45 = 35 ∧ PortOps.wind_score 45.01 = 50) ∧
    (∀ w : ℚ, PortOps.wind_score w ≤ 50) ∧
    (∀ v : ℚ, PortOps.vis_score v ≤ 30) ∧
    (∀ p : ℚ, PortOps.precip_score p ≤ 20) := by
  refine ⟨⟨?_, ?_, ?_, ?_⟩, ?_, ?_, ?_⟩
  · norm_num [PortOps.wind_score]
  · norm_num [PortOps.wind_score]
  · norm_num [PortOps.wind_score]
  · norm_num [PortOps.wind_score]
  · exact PortOps.wind_score_le
  · exact PortOps.vis_score_le
  · exact PortOps.precip_score_le

/-- C4: composite score and risk-level buckets.  The chokepoint composite
(an unclamped sum of contributions) equals the sum clamped to [0, 80]
because the factor bounds keep it in range; the port composite
`min(sum, 100)` likewise equals both the clamped sum and the bare sum;
both scripts derive the level from the composite by the same fixed
thresholds, whose three buckets partition the naturals — and hence
[0, max_possible] — with exactly one bucket per score (29 low, 30
moderate, 59 moderate, 60 high). -/
theorem c4_composite_and_levels :
    (∀ w v p : ℚ,
      Chokepoint.wind_risk w + Chokepoint.vis_risk v +
          Chokepoint.precip_risk p =
        max 0 (min (Chokepoint.wind_risk w + Chokepoint.vis_risk v +
          Chokepoint.precip_risk p) 80)) ∧
    (∀ w v p : ℚ,
      min (PortOps.wind_score w + PortOps.vis_score v +
          PortOps.precip_score p) 100 =
        max 0 (min (PortOps.wind_score w + PortOps.vis_score v +
          PortOps.precip_score p) 100) ∧
      min (PortOps.wind_score w + PortOps.vis_score v +
          PortOps.precip_score p) 100 =
        PortOps.wind_score w + PortOps.vis_score v +
          PortOps.precip_score p) ∧
    (∀ wl vl pl : List ℚ,
      (Chokepoint.compute_risk wl vl pl).level =
        levelOf (Chokepoint.compute_risk wl vl pl).score ∧
      (PortOps.compute_risk wl vl pl).level =
        levelOf (PortOps.compute_risk wl vl pl).score) ∧
    (∀ s : ℕ,
      (levelOf s = "low" ↔ s < 30) ∧
      (levelOf s = "moderate" ↔ 30 ≤ s ∧ s < 60) ∧
      (levelOf s = "high" ↔ 60 ≤ s)) ∧
    (levelOf 29 = "low" ∧ levelOf 30 = "moderate" ∧
      levelOf 59 = "moderate" ∧ levelOf 60 = "high") := by
  refine ⟨?_, ?_, ?_, ?_, ?_⟩
  · intro w v p
    have h1 := Chokepoint.wind_risk_le w
    have h2 := Chokepoint.vis_risk_le v
    have h3 := Chokepoint.precip_risk_le p
    omega
  · intro w v p
    have h1 := PortOps.wind_score_le w
    have h2 := PortOps.vis_score_le v
    have h3 := PortOps.precip_score_le p
    omega
  · intro wl vl pl
    exact ⟨rfl, rfl⟩
  · intro s
    unfold levelOf
    split_ifs with h1 h2
    · refine ⟨⟨fun _ => h1, fun _ => rfl⟩,
        ⟨fun hx => absurd hx (by decide), fun hx => absurd h1 (by omega)⟩,
        ⟨fun hx => absurd hx (by decide), fun hx => absurd h1 (by omega)⟩⟩
    · refine ⟨⟨fun hx => absurd hx (by decide), fun hx => absurd hx h1⟩,
        ⟨fun _ => ⟨by omega, h2⟩, fun _ => rfl⟩,
        ⟨fun hx => absurd hx (by decide), fun hx => absurd h2 (by omega)⟩⟩
    · refine ⟨⟨fun hx => absurd hx (by decide), fun hx => absurd hx h1⟩,
        ⟨fun hx => absurd hx (by decide), fun hx => absurd hx.2 h2⟩,
        ⟨fun _ => by omega, fun _ => rfl⟩⟩
  · refine ⟨?_, ?_, ?_, ?_⟩ <;> decide

/-- C5 counterexample: in the port-operations variant the difficulty
category is not derived from the index by the five-way table.  On a calm
reference hour (wind 10, visibility 20000, precipitation 0) the composite
and index are 0; the five-way table at index 0 says routine, but the code
returns the capitalised three-way level label. -/
theorem c5_difficulty_category_counterexample :
    (PortOps.compute_risk (List.replicate 24 10) (List.replicate 24 20000)
        (List.replicate 24 0)).tdi_category ≠
      Chokepoint.tdiCategory
        ((PortOps.compute_risk (List.replicate 24 10)
          (List.replicate 24 20000) (List.replicate 24 0)).tdi_score) := by
  have hs : (PortOps.compute_risk (List.replicate 24 10)
      (List.replicate 24 20000) (List.replicate 24 0)).score = 0 := by
    rw [po_score_eq]
    rw [List.getD_eq_getElem?_getD, List.getElem?_replicate]
    rw [List.getD_eq_getElem?_getD, List.getElem?_replicate]
    rw [List.getD_eq_getElem?_getD, List.getElem?_replicate]
    norm_num [PortOps.wind_score, PortOps.vis_score, PortOps.precip_score]
  rw [po_cat_eq, po_tdi_eq, hs]
  decide

/-- C5 amended: in the chokepoint variant the difficulty index is exactly
`round(composite / 80 * 100)` (Python round, half to even), the clamp to
[0, 100] is a no-op on composites up to 80, the index is monotone
non-decreasing, it is 0 exactly for composite 0 and 100 exactly for
composite 80, and the category follows the five-way table.  In the
port-operations variant `tdi_score` is the composite itself — which
coincides with `round(composite / 100 * 100)` since max_possible is
100 — but `tdi_category` is the capitalised three-way level label, not the
five-way table. -/
theorem c5_difficulty_index_amended :
    (∀ s : ℕ, s ≤ 80 →
      Chokepoint.tdi s = max 0 (min (pyround ((s : ℚ) / 80 * 100)) 100)) ∧
    (∀ s t : ℕ, s ≤ t → Chokepoint.tdi s ≤ Chokepoint.tdi t) ∧
    (∀ s : ℕ, (Chokepoint.tdi s = 0 ↔ s = 0)) ∧
    (∀ s : ℕ, s ≤ 80 → (Chokepoint.tdi s = 100 ↔ s = 80)) ∧
    (∀ i : ℤ,
      (Chokepoint.tdiCategory i = "Routine" ↔ i < 20) ∧
      (Chokepoint.tdiCategory i = "Caution" ↔ 20 ≤ i ∧ i < 40) ∧
      (Chokepoint.tdiCategory i = "Challenging" ↔ 40 ≤ i ∧ i < 60) ∧
      (Chokepoint.tdiCategory i = "Hazardous" ↔ 60 ≤ i ∧ i < 80) ∧
      (Chokepoint.tdiCategory i = "Severe" ↔ 80 ≤ i)) ∧
    (∀ wl vl pl : List ℚ,
      (Chokepoint.compute_risk wl vl pl).tdi_score =
        Chokepoint.tdi (Chokepoint.compute_risk wl vl pl).score ∧
      (Chokepoint.compute_risk wl vl pl).tdi_category =
        Chokepoint.tdiCategory
          (Chokepoint.compute_risk wl vl pl).tdi_score) ∧
    (∀ wl vl pl : List ℚ,
      (PortOps.compute_risk wl vl pl).tdi_score =
        ((PortOps.compute_risk wl vl pl).score : ℤ) ∧
      (PortOps.compute_risk wl vl pl).tdi_category =
        PortOps.capLevel (PortOps.compute_risk wl vl pl).score) ∧
    (∀ s : ℕ, (s : ℤ) = pyround ((s : ℚ) / 100 * 100)) := by
  refine ⟨?_, ?_, ?_, ?_, ?_, ?_, ?_, ?_⟩
  · intro s hs
    have h1 := Chokepoint.tdi_nonneg s
    have h2 := Chokepoint.tdi_le_100 hs
    unfold Chokepoint.tdi at h1 h2 ⊢
    omega
  · exact fun s t hst => Chokepoint.tdi_mono hst
  · exact Chokepoint.tdi_zero_iff
  · exact fun s hs => Chokepoint.tdi_hundred_iff hs
  · intro i
    unfold Chokepoint.tdiCategory
    split_ifs with h1 h2 h3 h4
    · refine ⟨⟨fun _ => h1, fun _ => rfl⟩,
        ⟨fun hx => absurd hx (by decide), fun hx => absurd h1 (by omega)⟩,
        ⟨fun hx => absurd hx (by decide), fun hx => absurd h1 (by omega)⟩,
        ⟨fun hx => absurd hx (by decide), fun hx => absurd h1 (by omega)⟩,
        ⟨fun hx => absurd hx (by decide), fun hx => absurd h1 (by omega)⟩⟩
    · refine ⟨⟨fun hx => absurd hx (by decide), fun hx => absurd hx h1⟩,
        ⟨fun _ => ⟨by omega, h2⟩, fun _ => rfl⟩,
        ⟨fun hx => absurd hx (by decide), fun hx => absurd h2 (by omega)⟩,
        ⟨fun hx => absurd hx (by decide), fun hx => absurd h2 (by omega)⟩,
        ⟨fun hx => absurd hx (by decide), fun hx => absurd h2 (by omega)⟩⟩
    · refine ⟨⟨fun hx => absurd hx (by decide), fun hx => absurd hx h1⟩,
        ⟨fun hx => absurd hx (by decide), fun hx => absurd hx.2 h2⟩,
        ⟨fun _ => ⟨by omega, h3⟩, fun _ => rfl⟩,
        ⟨fun hx => absurd hx (by decide), fun hx => absurd h3 (by omega)⟩,
        ⟨fun hx => absurd hx (by decide), fun hx => absurd h3 (by omega)⟩⟩
    · refine ⟨⟨fun hx => absurd hx (by decide), fun hx => absurd hx h1⟩,
        ⟨fun hx => absurd hx (by decide), fun hx => absurd hx.2 h2⟩,
        ⟨fun hx => absurd hx (by decide), fun hx => absurd hx.2 h3⟩,
        ⟨fun _ => ⟨by omega, h4⟩, fun _ => rfl⟩,
        ⟨fun hx => absurd hx (by decide), fun hx => absurd h4 (by omega)⟩⟩
    · refine ⟨⟨fun hx => absurd hx (by decide), fun hx => absurd hx h1⟩,
        ⟨fun hx => absurd hx (by decide), fun hx => absurd hx.2 h2⟩,
        ⟨fun hx => absurd hx (by decide), fun hx => absurd hx.2 h3⟩,
        ⟨fun hx => absurd hx (by decide), fun hx => absurd hx.2 h4⟩,
        ⟨fun _ => by omega, fun _ => rfl⟩⟩
  · intro wl vl pl
    exact ⟨rfl, rfl⟩
  · intro wl vl pl
    exact ⟨rfl, rfl⟩
  · intro s
    have hc : (s : ℚ) / 100 * 100 = ((s : ℤ) : ℚ) := by
      push_cast
      field_simp
    rw [hc, pyround_intCast]

/-- C6 counterexample: the port-operations variant does not compute the
multi-factor near/mid-window outlook.  On a series with constant wind and
visibility but precipitation jumping from 0 (hours 0-2) to 10 (hours 3-5),
the required method reports deteriorating, while the port script — which
compares only wind at hour 0 against wind at hour 6 — reports stable. -/
theorem c6_outlook_counterexample :
    (PortOps.compute_risk (List.replicate 24 10) (List.replicate 24 20000)
      ((0:ℚ) :: 0 :: 0 :: 10 :: 10 :: 10 :: List.replicate 18 0)).outlook_6h
      = "Stable" ∧
    specOutlook (List.replicate 24 10) (List.replicate 24 20000)
      ((0:ℚ) :: 0 :: 0 :: 10 :: 10 :: 10 :: List.replicate 18 0)
      = Outlook.deteriorating := by
  constructor
  · simp only [PortOps.compute_risk]
    rw [List.getD_eq_getElem?_getD, List.getElem?_replicate]
    rw [List.getD_eq_getElem?_getD, List.getElem?_replicate]
    norm_num [PortOps.trendText]
  · simp only [specOutlook, List.take_replicate, List.drop_replicate]
    norm_num [maxQ_replicate, minQ_replicate, avgQ_replicate]
    norm_num [specOutlookChain, avgQ]

/-- C6 amended: the chokepoint variant computes the 6-hour outlook by
exactly the multi-factor near/mid-window method of the spec (its outlook
text is the rendering of `specOutlook`, the comparator built from the
spec's words); the port-operations variant instead computes it from the
single-factor comparison of wind at hour 6 against wind at hour 0. -/
theorem c6_outlook_amended :
    (∀ wl vl pl : List ℚ,
      (Chokepoint.compute_risk wl vl pl).outlook_6h =
        outlookText (specOutlook wl vl pl)) ∧
    (∀ wl vl pl : List ℚ,
      (PortOps.compute_risk wl vl pl).outlook_6h =
        PortOps.trendText (wl.getD 6 0 - wl.getD 0 0)) := by
  constructor
  · intro wl vl pl
    exact outlookChain_text _ _
  · intro wl vl pl
    rfl

/-- C7: global aggregation over a non-empty collection.  The global index
is the maximum of the composite scores (an upper bound that is attained),
the highest-risk location is the one attaining that maximum with ties
broken by earliest input position (every strictly earlier location scores
strictly less), and the global level is derived from the index by the
fixed thresholds. -/
theorem c7_global_aggregation (a : LocAssessment) (t : List LocAssessment) :
    (∀ x ∈ a :: t, (x.score : ℤ) ≤
      (compute_global_metrics (a :: t)).global_index) ∧
    (∃ i, ∃ hi : i < (a :: t).length,
      (compute_global_metrics (a :: t)).highest =
        some (((a :: t).get ⟨i, hi⟩).name) ∧
      ((((a :: t).get ⟨i, hi⟩).score : ℤ) =
        (compute_global_metrics (a :: t)).global_index) ∧
      ∀ x ∈ (a :: t).take i, (x.score : ℤ) <
        (compute_global_metrics (a :: t)).global_index) ∧
    (compute_global_metrics (a :: t)).global_level =
      (if (compute_global_metrics (a :: t)).global_index < 30 then "low"
       else if (compute_global_metrics (a :: t)).global_index < 60 then
        "moderate"
       else "high") := by
  obtain ⟨h1, h2, h3⟩ := globalLoop_spec (a :: t) (-1) none
  have hidx : (compute_global_metrics (a :: t)).global_index =
      (globalLoop (-1) none (a :: t)).1 := rfl
  have hhigh : (compute_global_metrics (a :: t)).highest =
      (globalLoop (-1) none (a :: t)).2 := rfl
  rcases h3 with ⟨he, _⟩ | ⟨i, hi, hname, hsc, _, hpre⟩
  · exfalso
    have ha := h2 a (List.mem_cons_self a t)
    have := Int.natCast_nonneg a.score
    omega
  · refine ⟨?_, ⟨i, hi, ?_, ?_, ?_⟩, rfl⟩
    · intro x hx
      rw [hidx]
      exact h2 x hx
    · rw [hhigh]
      exact hname
    · rw [hidx]
      exact hsc
    · intro x hx
      rw [hidx]
      exact hpre x hx

/-- C8: the location assessor boundary, modelled from the spec (the
source scripts contain no such validation).  A well-formed series of
fewer than 24 observations fails with `InsufficientDataError`; a series
with a missing factor array or factor arrays of unequal lengths fails
with `MalformedSeriesError`; and a failed assessment produces no
`RiskAssessment` at all. -/
theorem c8_location_assessor :
    (∀ w v p : List ℚ, w.length = v.length → v.length = p.length →
      w.length < 24 →
      SpecModel.assess (some w) (some v) (some p) =
        Except.error SpecModel.AssessError.insufficientData) ∧
    (∀ w v p : List ℚ, ¬ (w.length = v.length ∧ v.length = p.length) →
      SpecModel.assess (some w) (some v) (some p) =
        Except.error SpecModel.AssessError.malformedSeries) ∧
    (∀ v p : Option (List ℚ),
      SpecModel.assess none v p =
        Except.error SpecModel.AssessError.malformedSeries) ∧
    (∀ (w : List ℚ) (p : Option (List ℚ)),
      SpecModel.assess (some w) none p =
        Except.error SpecModel.AssessError.malformedSeries) ∧
    (∀ w v : List ℚ,
      SpecModel.assess (some w) (some v) none =
        Except.error SpecModel.AssessError.malformedSeries) ∧
    (∀ w v p : Option (List ℚ), ∀ e,
      SpecModel.assess w v p = Except.error e →
      ∀ r, SpecModel.assess w v p ≠ Except.ok r) := by
  refine ⟨?_, ?_, ?_, ?_, ?_, ?_⟩
  · intro w v p h1 h2 h3
    simp only [SpecModel.assess]
    rw [if_pos ⟨h1, h2⟩, if_pos h3]
  · intro w v p h
    simp [SpecModel.assess, h]
  · intro v p
    simp [SpecModel.assess]
  · intro w p
    simp [SpecModel.assess]
  · intro w v
    simp [SpecModel.assess]
  · intro w v p e he r hok
    rw [he] at hok
    exact Except.noConfusion hok

/-- C9: under chokepoint-transit scoring there is no zero wind band: the
wind contribution is at least 5 for every raw value, so the composite
score of every series lies in [5, 80], every per-hour strip score lies in
[5, 80], a composite of 0 is unreachable, and the transit difficulty
index is strictly positive (never 0). -/
theorem c9_chokepoint_score_floor :
    (∀ w : ℚ, 5 ≤ Chokepoint.wind_risk w) ∧
    (∀ wl vl pl : List ℚ,
      5 ≤ (Chokepoint.compute_risk wl vl pl).score ∧
      (Chokepoint.compute_risk wl vl pl).score ≤ 80 ∧
      0 < (Chokepoint.compute_risk wl vl pl).tdi_score) ∧
    (∀ w v p : ℚ,
      5 ≤ Chokepoint.hourScore w v p ∧ Chokepoint.hourScore w v p ≤ 80) ∧
    (∀ wl vl pl : List ℚ,
      (Chokepoint.compute_risk wl vl pl).hourly_risk_strip =
        (List.range 24).map fun i =>
          levelOf (Chokepoint.hourScore ((wl.take 24).getD i 0)
            ((vl.take 24).getD i 0) ((pl.take 24).getD i 0))) := by
  refine ⟨Chokepoint.wind_risk_ge, ?_, ?_, ?_⟩
  · intro wl vl pl
    have h1 : 5 ≤ (Chokepoint.compute_risk wl vl pl).score := by
      rw [cp_score_eq]
      have := Chokepoint.wind_risk_ge (maxQ (wl.take 24))
      omega
    refine ⟨h1, ?_, ?_⟩
    · rw [cp_score_eq]
      have h2 := Chokepoint.wind_risk_le (maxQ (wl.take 24))
      have h3 := Chokepoint.vis_risk_le (minQ (vl.take 24))
      have h4 := Chokepoint.precip_risk_le (maxQ (pl.take 24))
      omega
    · rw [cp_tdi_eq]
      exact Chokepoint.tdi_pos h1
  · intro w v p
    unfold Chokepoint.hourScore
    have h1 := Chokepoint.wind_risk_ge w
    have h2 := Chokepoint.wind_risk_le w
    have h3 := Chokepoint.vis_risk_le v
    have h4 := Chokepoint.precip_risk_le p
    omega
  · intro wl vl pl
    rfl

/-- C10: in the port-operations variant the 6-hour outlook is a function
of the wind series alone at hours 0 and 6: any two inputs agreeing on
those two wind values produce the same outlook, whatever their
visibility and precipitation series. -/
theorem c10_outlook_noninterference
    (w1 v1 p1 w2 v2 p2 : List ℚ)
    (h0 : w1.getD 0 0 = w2.getD 0 0)
    (h6 : w1.getD 6 0 = w2.getD 6 0) :
    (PortOps.compute_risk w1 v1 p1).outlook_6h =
      (PortOps.compute_risk w2 v2 p2).outlook_6h := by
  show PortOps.trendText (w1.getD 6 0 - w1.getD 0 0) =
    PortOps.trendText (w2.getD 6 0 - w2.getD 0 0)
  rw [h0, h6]

/-- C10 witness: two concrete 24-hour series that agree on wind at hours
0 and 6 but differ everywhere else (including all visibility and
precipitation values) receive the same outlook. -/
theorem c10_outlook_noninterference_witness :
    (PortOps.compute_risk (List.replicate 24 10) (List.replicate 24 20000)
        (List.replicate 24 0)).outlook_6h =
      (PortOps.compute_risk
        ((10:ℚ) :: 99 :: 99 :: 99 :: 99 :: 99 :: 10 :: List.replicate 17 99)
        (List.replicate 24 0) (List.replicate 24 50)).outlook_6h :=
  c10_outlook_noninterference _ _ _ _ _ _
    (by
      rw [List.getD_eq_getElem?_getD, List.getElem?_replicate]
      norm_num)
    (by
      rw [List.getD_eq_getElem?_getD, List.getElem?_replicate]
      norm_num)
